import Mathlib

/-!
Verification of the CoasterCapital development-environment launcher
(src/dev.js).  The script spawns two shell commands ("backend" and
"frontend") with inherited stdio, registers one close listener per child
that logs "Process <name> stopped with code <code>", and installs a
SIGINT handler that prints a shutdown notice, forwards SIGINT to both
children, and exits the supervisor immediately.

The embedding below is a shallow state machine.  A SupervisorState holds
the two managed-process handles, the console log, and an exited flag.
External events (a child close notification carrying the exit code, a
child error notification delivered when the spawned executable itself
cannot be started, or a SIGINT delivered to the supervisor) are
processed one at a time by the single-threaded event loop, modelled by
the function step; after the supervisor process has ended (by its exit
operation or by an uncaught exception) no further event is processed.
Exit codes of close events are Option Int: some n for a numeric exit
status, none for the null code reported when the child was terminated by
a signal.  The runtime delivers an error event on a handle by invoking
its registered error listeners; when none is registered — and run in
src/dev.js registers only a close listener — the emission throws, and
the uncaught exception crashes the supervisor process without any line
of the program being logged.
-/

namespace CoasterCapital

/-- Shell command string for the backend child (src/dev.js line 14). -/
def backendCommand : String :=
  "cd backend && source .venv/bin/activate && uvicorn app.main:app --reload"

/-- Shell command string for the frontend child (src/dev.js line 18). -/
def frontendCommand : String :=
  "cd frontend && npm run dev"

/-- Banner printed at startup (src/dev.js line 11). -/
def bannerLine : String :=
  "=== Starting CoasterCapital Dev Environment ==="

/-- Shutdown notice printed by the SIGINT handler (src/dev.js line 21). -/
def shutdownNotice : String :=
  "\nStopping all processes..."

/-- Textual form of a close-event code in the template literal on line 6:
a numeric code prints as its decimal form, the null code of a
signal-terminated child prints as the word null. -/
def codeText : Option Int → String
  | some n => toString n
  | none => "null"

/-- The line logged by the close listener (src/dev.js line 6). -/
def closeLine (name : String) (code : Option Int) : String :=
  "Process " ++ name ++ " stopped with code " ++ codeText code

/-- A managed child process as the supervisor sees it: the display name,
the spawned command, how many close listeners and how many error
listeners are registered on the handle, which signals the supervisor has
sent it, and whether (and with which code) the OS has reported its
termination. -/
structure ManagedProcess where
  name : String
  command : String
  closeListeners : Nat
  errorListeners : Nat
  signalsReceived : List String
  terminated : Bool
  exitCode : Option Int
  deriving Repr, DecidableEq

/-- The function run of src/dev.js (lines 3 to 9): spawn the command
through the shell with inherited stdio, register exactly one close
listener on the handle — and no error listener, line 5 is the only
listener registration — and return the handle at once, before any
termination of the child has been observed. -/
def run (command name : String) : ManagedProcess :=
  { name := name
    command := command
    closeListeners := 1
    errorListeners := 0
    signalsReceived := []
    terminated := false
    exitCode := none }

/-- Sending a signal to a child handle (p.kill(sig) in the source):
recorded on the handle, with no claim that the child acted on it. -/
def ManagedProcess.kill (p : ManagedProcess) (sig : String) : ManagedProcess :=
  { p with signalsReceived := p.signalsReceived ++ [sig] }

/-- The whole supervisor: the console log, the two handles stored in the
consts backend and frontend of src/dev.js, whether the supervisor
process has ended, and whether it ended abnormally through an uncaught
exception rather than through process.exit. -/
structure SupervisorState where
  log : List String
  backend : ManagedProcess
  frontend : ManagedProcess
  exited : Bool
  crashed : Bool
  deriving Repr, DecidableEq

/-- The managed processes of the supervisor, in spawn order. -/
def SupervisorState.children (s : SupervisorState) : List ManagedProcess :=
  [s.backend, s.frontend]

/-- State after the top-level statements of src/dev.js (lines 11 to 18)
have run: banner printed, then the backend child spawned, then the
frontend child spawned, nothing waited for. -/
def startup : SupervisorState :=
  { log := [bannerLine]
    backend := run backendCommand "backend"
    frontend := run frontendCommand "frontend"
    exited := false
    crashed := false }

/-- Which of the two managed processes a close notification concerns. -/
inductive Which where
  | backend
  | frontend
  deriving Repr, DecidableEq

/-- Display name of each managed process. -/
def whichName : Which → String
  | .backend => "backend"
  | .frontend => "frontend"

/-- The handle the supervisor stores for each child. -/
def SupervisorState.target (s : SupervisorState) : Which → ManagedProcess
  | .backend => s.backend
  | .frontend => s.frontend

/-- External events the event loop can deliver to the supervisor: a
close notification for one child carrying its exit code (none when the
child was terminated by a signal), an error notification for one child
carrying the failure code the runtime reports when the spawned
executable itself — here the shell — cannot be started, or SIGINT on the
supervisor. -/
inductive Event where
  | childClose (w : Which) (code : Option Int)
  | spawnError (w : Which) (err : String)
  | sigint
  deriving Repr, DecidableEq

/-- One console.log call appending a line to the log. -/
def printLine (line : String) (s : SupervisorState) : SupervisorState :=
  { s with log := s.log ++ [line] }

/-- The statement backend.kill("SIGINT") generalised over the signal. -/
def signalBackend (sig : String) (s : SupervisorState) : SupervisorState :=
  { s with backend := s.backend.kill sig }

/-- The statement frontend.kill("SIGINT") generalised over the signal. -/
def signalFrontend (sig : String) (s : SupervisorState) : SupervisorState :=
  { s with frontend := s.frontend.kill sig }

/-- The call process.exit(): the supervisor stops at once. -/
def exitNow (s : SupervisorState) : SupervisorState :=
  { s with exited := true }

/-- The SIGINT handler body of src/dev.js lines 21 to 24, transcribed
statement by statement: print the shutdown notice, kill the backend,
kill the frontend, exit the supervisor. -/
def sigintHandler (s : SupervisorState) : SupervisorState :=
  exitNow (signalFrontend "SIGINT" (signalBackend "SIGINT" (printLine shutdownNotice s)))

/-- Delivery of a close notification with a given code for child w: the
handle records the termination, and every close listener registered on
that handle logs one line naming the child and the code (the listener of
src/dev.js lines 5 to 7). -/
def closeHandler (s : SupervisorState) (w : Which) (code : Option Int) : SupervisorState :=
  let p := s.target w
  let p' : ManagedProcess := { p with terminated := true, exitCode := code }
  let lines := List.replicate p.closeListeners (closeLine p.name code)
  match w with
  | .backend => { s with backend := p', log := s.log ++ lines }
  | .frontend => { s with frontend := p', log := s.log ++ lines }

/-- Delivery of an error notification for child w, per the runtime rule
for error events: when at least one error listener is registered on the
handle the listeners consume the event (this program registers none
anywhere, so that branch carries no handler body), and when none is
registered the emission throws an uncaught exception that ends the
supervisor process abnormally, with no line of the program logged. -/
def emitChildError (s : SupervisorState) (w : Which) : SupervisorState :=
  if (s.target w).errorListeners = 0 then
    { s with exited := true, crashed := true }
  else s

/-- One iteration of the event loop.  After the supervisor process has
ended — by process.exit or by an uncaught exception — the loop processes
nothing further. -/
def step (s : SupervisorState) (e : Event) : SupervisorState :=
  if s.exited then s
  else
    match e with
    | .childClose w code => closeHandler s w code
    | .spawnError w _ => emitChildError s w
    | .sigint => sigintHandler s

/-- Processing a whole sequence of events from a given state. -/
def runEvents (s : SupervisorState) (es : List Event) : SupervisorState :=
  es.foldl step s

/-- Invariant kept by every event: the stored handles keep the names
backend and frontend, keep exactly one close listener each, and keep
zero error listeners each. -/
def Stable (s : SupervisorState) : Prop :=
  s.backend.name = "backend" ∧ s.backend.closeListeners = 1 ∧
    s.backend.errorListeners = 0 ∧
  s.frontend.name = "frontend" ∧ s.frontend.closeListeners = 1 ∧
    s.frontend.errorListeners = 0

lemma stable_startup : Stable startup :=
  ⟨rfl, rfl, rfl, rfl, rfl, rfl⟩

lemma stable_step (s : SupervisorState) (e : Event) (h : Stable s) :
    Stable (step s e) := by
  obtain ⟨h1, h2, h3, h4, h5, h6⟩ := h
  unfold step
  by_cases he : s.exited
  · simp only [he, if_true]
    exact ⟨h1, h2, h3, h4, h5, h6⟩
  · simp only [he, if_false]
    cases e with
    | childClose w code =>
      cases w <;>
        simp only [closeHandler, SupervisorState.target] <;>
        exact ⟨h1, h2, h3, h4, h5, h6⟩
    | spawnError w err =>
      cases w <;>
        simp only [emitChildError, SupervisorState.target] <;>
        split <;>
        exact ⟨h1, h2, h3, h4, h5, h6⟩
    | sigint =>
      simp only [sigintHandler, exitNow, signalFrontend, signalBackend, printLine,
        ManagedProcess.kill]
      exact ⟨h1, h2, h3, h4, h5, h6⟩

lemma stable_runEvents (es : List Event) (s : SupervisorState) (h : Stable s) :
    Stable (runEvents s es) := by
  induction es generalizing s with
  | nil => exact h
  | cons e es ih =>
    have : runEvents s (e :: es) = runEvents (step s e) es := rfl
    rw [this]
    exact ih (step s e) (stable_step s e h)

lemma step_of_exited (s : SupervisorState) (e : Event) (h : s.exited = true) :
    step s e = s := by
  simp [step, h]

lemma runEvents_of_exited (s : SupervisorState) (es : List Event) (h : s.exited = true) :
    runEvents s es = s := by
  induction es with
  | nil => rfl
  | cons e es ih =>
    have h1 : runEvents s (e :: es) = runEvents (step s e) es := rfl
    rw [h1, step_of_exited s e h]
    exact ih

/-- C1: on SIGINT while the supervisor is running, the handler appends
exactly the shutdown notice to the log, sends SIGINT first to the
backend handle and then to the frontend handle, and marks the supervisor
exited at once; neither child is waited for — their termination status
is unchanged by the handler. -/
theorem sigint_sequence (s : SupervisorState) (h : s.exited = false) :
    (step s .sigint).log = s.log ++ [shutdownNotice] ∧
    (step s .sigint).backend = s.backend.kill "SIGINT" ∧
    (step s .sigint).frontend = s.frontend.kill "SIGINT" ∧
    (step s .sigint).exited = true ∧
    (step s .sigint).backend.terminated = s.backend.terminated ∧
    (step s .sigint).frontend.terminated = s.frontend.terminated := by
  simp [step, h, sigintHandler, exitNow, signalFrontend, signalBackend, printLine,
    ManagedProcess.kill]

/-- Witness for C1 at the startup state. -/
theorem sigint_sequence_witness :
    (step startup .sigint).log = startup.log ++ [shutdownNotice] ∧
    (step startup .sigint).backend = startup.backend.kill "SIGINT" ∧
    (step startup .sigint).frontend = startup.frontend.kill "SIGINT" ∧
    (step startup .sigint).exited = true ∧
    (step startup .sigint).backend.terminated = startup.backend.terminated ∧
    (step startup .sigint).frontend.terminated = startup.frontend.terminated :=
  sigint_sequence startup rfl

/-- C2: in any reachable running state, a close notification for either
child appends exactly one log line, of the form Process name stopped
with code code; a normal exit with code 0 logs the digit 0 and a
signal-terminated child (null code) logs the word null, never a
fabricated number. -/
theorem close_logging (es : List Event) (w : Which) (code : Option Int)
    (h : (runEvents startup es).exited = false) :
    (step (runEvents startup es) (.childClose w code)).log =
      (runEvents startup es).log ++ [closeLine (whichName w) code] ∧
    closeLine "backend" (some 0) = "Process backend stopped with code 0" ∧
    closeLine "frontend" none = "Process frontend stopped with code null" := by
  obtain ⟨h1, h2, h3, h4, h5, h6⟩ := stable_runEvents es startup stable_startup
  refine ⟨?_, by decide, by decide⟩
  cases w <;>
    simp [step, h, closeHandler, SupervisorState.target, whichName, h1, h2, h4, h5]

/-- Witness for C2 at the startup state with a frontend close carrying a
null code. -/
theorem close_logging_witness :
    (step (runEvents startup []) (.childClose Which.frontend none)).log =
      (runEvents startup []).log ++ [closeLine (whichName Which.frontend) none] ∧
    closeLine "backend" (some 0) = "Process backend stopped with code 0" ∧
    closeLine "frontend" none = "Process frontend stopped with code null" :=
  close_logging [] Which.frontend none rfl

/-- C3 counterexample: the claim says a failure to start the underlying
shell or command is surfaced as a termination event, reported through
the generic exit-logging path, and never crashes the supervisor.  At the
startup state, a shell that cannot be started delivers an error event on
the backend handle; run registered no error listener, so the emission
becomes an uncaught exception: the supervisor crashes and its log is
unchanged — no exit-log line is ever produced for this failure. -/
theorem spawn_error_crash_counterexample :
    (step startup (.spawnError Which.backend "ENOENT")).crashed = true ∧
    (step startup (.spawnError Which.backend "ENOENT")).exited = true ∧
    (step startup (.spawnError Which.backend "ENOENT")).log = startup.log :=
  ⟨rfl, rfl, rfl⟩

/-- C3 amended: a command that fails inside a started shell is observed
as a close event with a non-zero code, is handled by the generic
exit-logging path without a throw, and leaves the supervisor running;
but a failure to start the shell executable itself arrives as an error
event for which no listener is registered, and that crashes the
supervisor with its log unchanged — no exit-log line. -/
theorem spawn_failure_paths (es : List Event) (w : Which) (code : Int) (err : String)
    (h : (runEvents startup es).exited = false) (hc : code ≠ 0) :
    (step (runEvents startup es) (.childClose w (some code))).exited = false ∧
    (step (runEvents startup es) (.childClose w (some code))).log =
      (runEvents startup es).log ++ [closeLine (whichName w) (some code)] ∧
    (step (runEvents startup es) (.spawnError w err)).crashed = true ∧
    (step (runEvents startup es) (.spawnError w err)).log = (runEvents startup es).log := by
  obtain ⟨h1, h2, h3, h4, h5, h6⟩ := stable_runEvents es startup stable_startup
  refine ⟨?_, ?_, ?_, ?_⟩
  · cases w <;> simp [step, h, closeHandler, SupervisorState.target]
  · cases w <;>
      simp [step, h, closeHandler, SupervisorState.target, whichName, h1, h2, h4, h5]
  · cases w <;> simp [step, h, emitChildError, SupervisorState.target, h3, h6]
  · cases w <;> simp [step, h, emitChildError, SupervisorState.target, h3, h6]

/-- Witness for the amended C3: from the startup state, the backend
closing with code 127 (command not found inside a started shell) is
logged with the supervisor still running, while a spawn error on the
backend handle crashes the supervisor with nothing logged. -/
theorem spawn_failure_paths_witness :
    (step (runEvents startup []) (.childClose Which.backend (some 127))).exited = false ∧
    (step (runEvents startup []) (.childClose Which.backend (some 127))).log =
      (runEvents startup []).log ++ [closeLine (whichName Which.backend) (some 127)] ∧
    (step (runEvents startup []) (.spawnError Which.backend "ENOENT")).crashed = true ∧
    (step (runEvents startup []) (.spawnError Which.backend "ENOENT")).log =
      (runEvents startup []).log :=
  spawn_failure_paths [] Which.backend 127 "ENOENT" rfl (by decide)

/-- C4: at launch the banner is the first and only log line, and exactly
two managed processes exist, the backend handle spawned with the backend
command before the frontend handle with the frontend command; neither is
waited for — both handles are still unterminated and unsignalled when
startup completes, and the supervisor has not exited. -/
theorem startup_order :
    startup.log = [bannerLine] ∧
    startup.children = [run backendCommand "backend", run frontendCommand "frontend"] ∧
    startup.children.length = 2 ∧
    startup.backend.name = "backend" ∧
    startup.backend.command = backendCommand ∧
    startup.frontend.name = "frontend" ∧
    startup.frontend.command = frontendCommand ∧
    startup.backend.terminated = false ∧
    startup.frontend.terminated = false ∧
    startup.backend.signalsReceived = [] ∧
    startup.frontend.signalsReceived = [] ∧
    startup.exited = false := by
  refine ⟨rfl, rfl, rfl, rfl, rfl, rfl, rfl, rfl, rfl, rfl, rfl, rfl⟩

/-- C5: after any sequence of events the supervisor manages exactly the
two processes named backend and frontend — no event ever creates a
third. -/
theorem two_children (es : List Event) :
    ((runEvents startup es).children).length = 2 ∧
    ((runEvents startup es).children).map ManagedProcess.name = ["backend", "frontend"] := by
  obtain ⟨h1, h2, h3, h4, h5, h6⟩ := stable_runEvents es startup stable_startup
  exact ⟨rfl, by simp [SupervisorState.children, h1, h4]⟩

/-- C6: if the backend child fails immediately with a non-zero code, the
frontend handle is untouched and still the spawned frontend process, the
log gains the backend termination line after the banner, and the
supervisor has not exited or crashed. -/
theorem backend_failure_isolated (c : Int) (h : c ≠ 0) :
    (step startup (.childClose Which.backend (some c))).frontend =
      run frontendCommand "frontend" ∧
    (step startup (.childClose Which.backend (some c))).log =
      [bannerLine, closeLine "backend" (some c)] ∧
    (step startup (.childClose Which.backend (some c))).exited = false := by
  refine ⟨rfl, ?_, rfl⟩
  simp [step, startup, closeHandler, SupervisorState.target, run]

/-- Witness for C6 at code 127. -/
theorem backend_failure_isolated_witness :
    (step startup (.childClose Which.backend (some 127))).frontend =
      run frontendCommand "frontend" ∧
    (step startup (.childClose Which.backend (some 127))).log =
      [bannerLine, closeLine "backend" (some 127)] ∧
    (step startup (.childClose Which.backend (some 127))).exited = false :=
  backend_failure_isolated 127 (by decide)

/-- C7: for every non-empty command and name, run returns a handle at
once that carries that command and name, has observed no termination and
no exit code, and has been sent no signal — nothing about the handle
depends on the child having run at all. -/
theorem run_returns_immediately (command name : String)
    (h1 : command ≠ "") (h2 : name ≠ "") :
    (run command name).name = name ∧
    (run command name).command = command ∧
    (run command name).terminated = false ∧
    (run command name).exitCode = none ∧
    (run command name).signalsReceived = [] := by
  exact ⟨rfl, rfl, rfl, rfl, rfl⟩

/-- Witness for C7 at the backend command and name. -/
theorem run_returns_immediately_witness :
    (run backendCommand "backend").name = "backend" ∧
    (run backendCommand "backend").command = backendCommand ∧
    (run backendCommand "backend").terminated = false ∧
    (run backendCommand "backend").exitCode = none ∧
    (run backendCommand "backend").signalsReceived = [] :=
  run_returns_immediately backendCommand "backend" (by decide) (by decide)

/-- C8: from any state, once one SIGINT has been processed the
supervisor is already exiting, and a second SIGINT is a no-op — it
neither throws nor hangs nor changes the state. -/
theorem second_sigint_noop (s : SupervisorState) :
    (step s .sigint).exited = true ∧
    step (step s .sigint) .sigint = step s .sigint := by
  by_cases h : s.exited
  · constructor
    · rw [step_of_exited s .sigint h]
      exact h
    · rw [step_of_exited s .sigint h, step_of_exited s .sigint h]
  · have h1 : (step s .sigint).exited = true := by
      simp [step, h, sigintHandler, exitNow]
    exact ⟨h1, step_of_exited _ .sigint h1⟩

/-- C9: the exit call runs inside the SIGINT handler, so from any
running state every event pending after the SIGINT is never processed:
the state is frozen and the log ends at the shutdown notice — no child
exit line is ever printed after it. -/
theorem exit_preempts_close (s : SupervisorState) (es : List Event)
    (h : s.exited = false) :
    runEvents (step s .sigint) es = step s .sigint ∧
    (runEvents (step s .sigint) es).log = s.log ++ [shutdownNotice] := by
  have h1 : (step s .sigint).exited = true := by
    simp [step, h, sigintHandler, exitNow]
  have h2 := runEvents_of_exited (step s .sigint) es h1
  refine ⟨h2, ?_⟩
  rw [h2]
  simp [step, h, sigintHandler, exitNow, signalFrontend, signalBackend, printLine]

/-- Witness for C9: a backend close pending behind the SIGINT at the
startup state is never logged. -/
theorem exit_preempts_close_witness :
    runEvents (step startup .sigint) [Event.childClose Which.backend (some 0)] =
      step startup .sigint ∧
    (runEvents (step startup .sigint) [Event.childClose Which.backend (some 0)]).log =
      startup.log ++ [shutdownNotice] :=
  exit_preempts_close startup [Event.childClose Which.backend (some 0)] rfl

/-- C10: run registers exactly one close listener on every handle it
returns, and consequently in any reachable running state one close
notification produces exactly one exit-log line — never zero, never
more. -/
theorem one_listener_one_line (cmd nm : String) (es : List Event) (w : Which)
    (code : Option Int) (h : (runEvents startup es).exited = false) :
    (run cmd nm).closeListeners = 1 ∧
    ((step (runEvents startup es) (.childClose w code)).log).length =
      (runEvents startup es).log.length + 1 := by
  obtain ⟨h1, h2, h3, h4, h5, h6⟩ := stable_runEvents es startup stable_startup
  refine ⟨rfl, ?_⟩
  cases w <;>
    simp [step, h, closeHandler, SupervisorState.target, h2, h5]

/-- Witness for C10 at the startup state with a backend close of code
null. -/
theorem one_listener_one_line_witness :
    (run "ls" "demo").closeListeners = 1 ∧
    ((step (runEvents startup []) (.childClose Which.backend none)).log).length =
      (runEvents startup []).log.length + 1 :=
  one_listener_one_line "ls" "demo" [] Which.backend none rfl

end CoasterCapital
